import Mathlib

/-!
Verification development for the filter-string parser and pagination engine
of the autotask-go client library (package `pkg/autotask`).

The filter parser (`ParseFilterString` and its helpers) and the pagination
helpers (`PaginationIterator`, `FetchAllPages`, `FetchAllPagesWithCallback`,
`FetchPage`) are embedded shallowly: Go strings become `String`, Go slices
become `List`, the dynamically typed filter value becomes a closed sum type,
the HTTP transport becomes an oracle `String → Except String (… response …)`
passed explicitly, and the unbounded Go `for` loops become fuelled recursion
whose exhaustion is a distinguished `Option.none` result.
-/

namespace Autotask

/-! ## Go string primitives

The Go code uses `strings.Contains`, `strings.Split`, `strings.ToUpper`,
`strings.ToLower`, `strings.TrimSpace`, `strings.Trim`, `strings.HasPrefix`
and `strings.HasSuffix`.  They are modelled here over `String.data`
(`List Char`) with structural recursion so that every definition reduces
inside the kernel.  All inputs relevant to the claims are ASCII, where the
Lean character case functions agree with Go's Unicode ones. -/

/-- Characters treated as whitespace by Go's `strings.TrimSpace` (ASCII part
of `unicode.IsSpace`). -/
def isGoSpace (c : Char) : Bool :=
  c = ' ' || c = '\t' || c = '\n' || c = '\x0b' || c = '\x0c' || c = '\r'

/-- Go `strings.TrimSpace`: drop whitespace from both ends. -/
def goTrimSpace (s : String) : String :=
  ⟨((s.data.dropWhile isGoSpace).reverse.dropWhile isGoSpace).reverse⟩

/-- Quote characters in the cutset of `strings.Trim(value, "'\"")`. -/
def isQuoteChar (c : Char) : Bool :=
  c = '\x27' || c = '"'

/-- Go `strings.Trim(s, "'\"")`: drop quote characters from both ends. -/
def goTrimQuotes (s : String) : String :=
  ⟨((s.data.dropWhile isQuoteChar).reverse.dropWhile isQuoteChar).reverse⟩

/-- Go `strings.ToUpper` (ASCII). -/
def goToUpper (s : String) : String := ⟨s.data.map Char.toUpper⟩

/-- Go `strings.ToLower` (ASCII). -/
def goToLower (s : String) : String := ⟨s.data.map Char.toLower⟩

/-- Go `strings.HasPrefix`. -/
def goHasPre (s pre : String) : Bool := pre.data.isPrefixOf s.data

/-- Go `strings.HasSuffix`. -/
def goHasSuf (s suf : String) : Bool := suf.data.reverse.isPrefixOf s.data.reverse

/-- One step of `strings.Split`: fuelled scan for the leftmost occurrence of
the (non-empty) separator.  `fuel` is initialised to the length of the
scanned list, which one character per step makes sufficient; the fuel-zero
branch is unreachable for that initialisation. -/
def goSplitAux (sep : List Char) : Nat → List Char → List Char →
    List (List Char)
  | _, acc, [] => [acc.reverse]
  | 0, acc, rest => [acc.reverse ++ rest]
  | fuel + 1, acc, c :: cs =>
    if sep.isPrefixOf (c :: cs) then
      acc.reverse :: goSplitAux sep fuel [] ((c :: cs).drop sep.length)
    else
      goSplitAux sep fuel (c :: acc) cs

/-- Go `strings.Split(s, sep)` for a non-empty separator: split around every
non-overlapping leftmost occurrence of `sep`. -/
def goSplit (s sep : String) : List String :=
  (goSplitAux sep.data s.data.length [] s.data).map String.mk

/-- Go `strings.Contains(s, sub)` for the non-empty substrings used by the
parser: at least one occurrence, i.e. the split has more than one part. -/
def goContains (s sub : String) : Bool := (goSplit s sub).length != 1

/-- The Go pattern `parts := strings.Split(s, sep); if len(parts) == 2 {…}`:
yields the two parts exactly when the separator occurs exactly once. -/
def split2 (s sep : String) : Option (String × String) :=
  match goSplit s sep with
  | [a, b] => some (a, b)
  | _ => none

/-! ## Filter data model (`query.go`) -/

/-- Go `QueryOperator` is a string type; its constants follow. -/
abbrev QueryOperator := String

def OperatorEquals : QueryOperator := "eq"
def OperatorNotEquals : QueryOperator := "noteq"
def OperatorContains : QueryOperator := "contains"
def OperatorGreaterThan : QueryOperator := "greaterThan"
def OperatorLessThan : QueryOperator := "lessThan"

/-- Go `LogicalOperator` is a string type (`"and"` / `"or"`). -/
abbrev LogicalOperator := String

def LogicalOperatorAnd : LogicalOperator := "and"
def LogicalOperatorOr : LogicalOperator := "or"

/-- The values the parser can place in `QueryFilter.Value` (Go uses
`interface{}`): booleans, integers, floats (modelled as rationals) and raw
strings.  `Option` around it models Go's `nil`. -/
inductive FilterValue where
  | bool (b : Bool)
  | int (i : Int)
  | float (q : ℚ)
  | str (s : String)
deriving DecidableEq, Repr

/-- Go `QueryFilter`: a single leaf condition.  The zero value
`QueryFilter{}` is `⟨"", "", none⟩`. -/
structure QueryFilter where
  Field : String
  Operator : QueryOperator
  Value : Option FilterValue
deriving DecidableEq, Repr

/-- Go `NewQueryFilter`. -/
def NewQueryFilter (field : String) (op : QueryOperator)
    (value : Option FilterValue) : QueryFilter :=
  ⟨field, op, value⟩

/-- A node of the filter tree: Go represents this as `interface{}` holding
either a `QueryFilter` or a `FilterGroup{Operator, Items []interface{}}`. -/
inductive FilterNode where
  | filter (f : QueryFilter)
  | group (op : LogicalOperator) (items : List FilterNode)

/-- Go `NewAndFilterGroup`. -/
def NewAndFilterGroup (items : List FilterNode) : FilterNode :=
  .group LogicalOperatorAnd items

/-- Go `NewOrFilterGroup`. -/
def NewOrFilterGroup (items : List FilterNode) : FilterNode :=
  .group LogicalOperatorOr items

/-! ## The filter parser (`query.go`) -/

/-- Go `isNumeric`:
```go
func isNumeric(s string) bool {
    _, err := fmt.Sscanf(s, "%f", &struct{}{})
    return err == nil
}
```
`Sscanf` is asked to scan a `%f` verb into a pointer to an empty struct;
`fmt`'s scanner has no case for struct kinds, so it always fails with
"can't scan type: *struct {}" and `err` is never `nil`.  The function
therefore returns `false` on every input, whatever the string contains. -/
def isNumeric (_ : String) : Bool := false

/-- Go `parseInt` (`fmt.Sscanf(s, "%d", &i)`, ignoring the error): an
optional sign followed by leading decimal digits; `0` when nothing scans. -/
def goParseInt (s : String) : Int :=
  let digitsVal : List Char → Int :=
    fun ds => ds.foldl (fun n c => n * 10 + (c.toNat - 48 : Int)) 0
  match s.data with
  | '-' :: rest =>
    let ds := rest.takeWhile Char.isDigit
    if ds.isEmpty then 0 else -(digitsVal ds)
  | '+' :: rest =>
    let ds := rest.takeWhile Char.isDigit
    if ds.isEmpty then 0 else digitsVal ds
  | cs =>
    let ds := cs.takeWhile Char.isDigit
    if ds.isEmpty then 0 else digitsVal ds

/-- Go `parseFloat` (`fmt.Sscanf(s, "%f", &f)`, ignoring the error): decimal
number with an optional fractional part, as an exact rational; `0` when
nothing scans.  (Unreachable from the parser: `isNumeric` never holds.) -/
def goParseFloat (s : String) : ℚ :=
  let digitsVal : List Char → Int :=
    fun ds => ds.foldl (fun n c => n * 10 + (c.toNat - 48 : Int)) 0
  let core : List Char → ℚ := fun cs =>
    let intDigits := cs.takeWhile Char.isDigit
    let rest := cs.drop intDigits.length
    let fracDigits :=
      match rest with
      | '.' :: r => r.takeWhile Char.isDigit
      | _ => []
    if intDigits.isEmpty then 0
    else (digitsVal intDigits : ℚ) +
      (digitsVal fracDigits : ℚ) / ((10 : ℚ) ^ fracDigits.length)
  match s.data with
  | '-' :: rest => -(core rest)
  | '+' :: rest => core rest
  | cs => core cs

/-- Go `parseValueWithOperator`: coerce the textual value.  Literal `true` /
`false` become booleans; a numeric value would become an int (no `.`) or a
float — a branch `isNumeric` never enables; everything else stays a string,
quotes included. -/
def parseValueWithOperator (field : String) (op : QueryOperator)
    (valueStr : String) : QueryFilter :=
  if valueStr = "true" then NewQueryFilter field op (some (.bool true))
  else if valueStr = "false" then NewQueryFilter field op (some (.bool false))
  else if isNumeric valueStr then
    if ¬ goContains valueStr "." then
      NewQueryFilter field op (some (.int (goParseInt valueStr)))
    else
      NewQueryFilter field op (some (.float (goParseFloat valueStr)))
  else NewQueryFilter field op (some (.str valueStr))

/-- Go `parseSimpleFilter`: try `!=`, then ` contains ` (on the lower-cased
string), then `>`, then `<`, then `=`; each path applies only when the split
on the token has exactly two parts (the Go `len(parts) == 2` check), and the
fall-through result is the zero-value `QueryFilter{}`. -/
def parseSimpleFilter (filterStr : String) : QueryFilter :=
  match split2 filterStr "!=" with
  | some (f, v) =>
    parseValueWithOperator (goTrimSpace f) OperatorNotEquals (goTrimSpace v)
  | none =>
  match split2 (goToLower filterStr) " contains " with
  | some (f, v) =>
    NewQueryFilter (goTrimSpace f) OperatorContains
      (some (.str (goTrimQuotes (goTrimSpace v))))
  | none =>
  match split2 filterStr ">" with
  | some (f, v) =>
    parseValueWithOperator (goTrimSpace f) OperatorGreaterThan (goTrimSpace v)
  | none =>
  match split2 filterStr "<" with
  | some (f, v) =>
    parseValueWithOperator (goTrimSpace f) OperatorLessThan (goTrimSpace v)
  | none =>
  match split2 filterStr "=" with
  | some (f, v) =>
    parseValueWithOperator (goTrimSpace f) OperatorEquals (goTrimSpace v)
  | none => ⟨"", "", none⟩

/-- Go `parseNestedFilter`: split the upper-cased string on the outer
connective (`" AND "` first, then `" OR "`); a segment wholly wrapped in
parentheses has them stripped and its interior parsed as the opposite
connective group when that connective occurs, else as a simple condition. -/
def parseNestedFilter (filterStr : String) : FilterNode :=
  if goContains (goToUpper filterStr) " AND " then
    NewAndFilterGroup ((goSplit (goToUpper filterStr) " AND ").map fun part =>
      let part := goTrimSpace part
      if goHasPre part "(" && goHasSuf part ")" then
        let nestedPart : String := ⟨part.data.drop 1 |>.dropLast⟩
        if goContains (goToUpper nestedPart) " OR " then
          NewOrFilterGroup ((goSplit (goToUpper nestedPart) " OR ").map
            fun np => .filter (parseSimpleFilter (goTrimSpace np)))
        else .filter (parseSimpleFilter nestedPart)
      else .filter (parseSimpleFilter part))
  else if goContains (goToUpper filterStr) " OR " then
    NewOrFilterGroup ((goSplit (goToUpper filterStr) " OR ").map fun part =>
      let part := goTrimSpace part
      if goHasPre part "(" && goHasSuf part ")" then
        let nestedPart : String := ⟨part.data.drop 1 |>.dropLast⟩
        if goContains (goToUpper nestedPart) " AND " then
          NewAndFilterGroup ((goSplit (goToUpper nestedPart) " AND ").map
            fun np => .filter (parseSimpleFilter (goTrimSpace np)))
        else .filter (parseSimpleFilter nestedPart)
      else .filter (parseSimpleFilter part))
  else .filter (parseSimpleFilter filterStr)

/-- Go `parseComplexFilter`: with parentheses present delegate to the nested
path; otherwise split the upper-cased string on `" AND "` (checked first) or
`" OR "` and parse each trimmed segment as a simple condition. -/
def parseComplexFilter (filterStr : String) : FilterNode :=
  if goContains filterStr "(" && goContains filterStr ")" then
    parseNestedFilter filterStr
  else if goContains (goToUpper filterStr) " AND " then
    NewAndFilterGroup ((goSplit (goToUpper filterStr) " AND ").map
      fun part => .filter (parseSimpleFilter (goTrimSpace part)))
  else if goContains (goToUpper filterStr) " OR " then
    NewOrFilterGroup ((goSplit (goToUpper filterStr) " OR ").map
      fun part => .filter (parseSimpleFilter (goTrimSpace part)))
  else .filter (parseSimpleFilter filterStr)

/-- Go `ParseFilterString`: empty input yields `nil`; a string containing an
upper-cased `" AND "` or `" OR "` goes to the complex path; otherwise the
string is one simple condition. -/
def ParseFilterString (filterStr : String) : Option FilterNode :=
  if filterStr = "" then none
  else if goContains (goToUpper filterStr) " AND " ||
      goContains (goToUpper filterStr) " OR " then
    some (parseComplexFilter filterStr)
  else some (.filter (parseSimpleFilter filterStr))

/-! ## Pagination engine (`pagination.go`)

The HTTP side is the external collaborator: a fetch performed through
`service.GetClient().NewRequest` / `Do` becomes an oracle
`fetch : String → Except String (PaginatedResults T)` from the request
target to a decoded response or a transport error.  The first-page request
target, which Go assembles from the entity name and the URL-escaped JSON of
the `EntityQueryParams` built from the parsed filter, is abstracted as an
opaque `firstUrl : String` — none of the claims depend on its contents,
only on which requests are issued and how responses drive the control flow.
Every embedded operation also returns the list of request targets it
issued, in order, so that "no further request" claims are statements about
that trace. -/

/-- Go `PageDetails` (`types.go`). -/
structure PageDetails where
  PageNumber : Int
  PageSize : Int
  Count : Int
  NextPageUrl : String
  PrevPageUrl : String
deriving DecidableEq, Repr

/-- Go `PaginatedResults[T]`, also the shape of the anonymous response
struct (`Items`, `PageDetails`) the helpers decode into. -/
structure PaginatedResults (T : Type) where
  Items : List T
  PageDetails : PageDetails
deriving DecidableEq, Repr

/-- The transport oracle: request target to decoded response or error. -/
abbrev Fetch (T : Type) := String → Except String (PaginatedResults T)

/-- Go `PaginationIterator` state (the `service` and `ctx` fields live in
the transport oracle). -/
structure PaginationIterator (T : Type) where
  filter : String
  currentPage : Int
  pageSize : Int
  totalCount : Int
  hasMore : Bool
  nextPageUrl : String
  prevPageUrl : String
  items : List T
  currentIndex : Int
deriving DecidableEq, Repr

/-- Go `PaginationIterator.Error`:
```go
func (p *PaginationIterator) Error() error { return nil }
```
the accessor is hard-coded to `nil` for every iterator state. -/
def PaginationIterator.ErrorAccessor (_ : PaginationIterator T) :
    Option String := none

/-- Go `PaginationIterator.loadNextPage`: on the first page fetch the query
endpoint (`firstUrl`); afterwards fetch `nextPageUrl` when it is non-empty,
and otherwise return `nil` without any request or state change.  A
successful fetch installs the response and sets
`hasMore = (NextPageUrl != "" && len(Items) > 0)` and bumps `currentPage`;
a failed fetch leaves the state unchanged and surfaces the error.  The
second component is the list of request targets issued. -/
def PaginationIterator.loadNextPage (fetch : Fetch T) (firstUrl : String)
    (p : PaginationIterator T) :
    Except String (PaginationIterator T) × List String :=
  if p.currentPage = 1 then
    match fetch firstUrl with
    | .error e => (.error ("query failed: " ++ e), [firstUrl])
    | .ok resp =>
      (.ok { p with
        items := resp.Items
        totalCount := resp.PageDetails.Count
        nextPageUrl := resp.PageDetails.NextPageUrl
        prevPageUrl := resp.PageDetails.PrevPageUrl
        hasMore := (resp.PageDetails.NextPageUrl != "") && !resp.Items.isEmpty
        currentPage := p.currentPage + 1 }, [firstUrl])
  else if p.nextPageUrl ≠ "" then
    match fetch p.nextPageUrl with
    | .error e => (.error ("query failed: " ++ e), [p.nextPageUrl])
    | .ok resp =>
      (.ok { p with
        items := resp.Items
        totalCount := resp.PageDetails.Count
        nextPageUrl := resp.PageDetails.NextPageUrl
        prevPageUrl := resp.PageDetails.PrevPageUrl
        hasMore := (resp.PageDetails.NextPageUrl != "") && !resp.Items.isEmpty
        currentPage := p.currentPage + 1 }, [p.nextPageUrl])
  else (.ok p, [])

/-- Go `NewPaginationIterator`: build the initial state
(`currentPage = 1`, `currentIndex = -1`) and eagerly load the first page;
a failed load fails the construction. -/
def NewPaginationIterator (fetch : Fetch T) (firstUrl : String)
    (filter : String) (pageSize : Int) :
    Except String (PaginationIterator T) × List String :=
  PaginationIterator.loadNextPage fetch firstUrl
    { filter := filter, currentPage := 1, pageSize := pageSize,
      totalCount := 0, hasMore := false, nextPageUrl := "",
      prevPageUrl := "", items := [], currentIndex := -1 }

/-- Go `PaginationIterator.Next`: bump `currentIndex`; when it runs past
the buffer and `hasMore` holds, load the next page (returning `false` on a
load error) and reset the index; the returned `Bool` is
`currentIndex < len(items)` on the resulting state. -/
def PaginationIterator.next (fetch : Fetch T) (firstUrl : String)
    (p : PaginationIterator T) :
    Bool × PaginationIterator T × List String :=
  let p1 : PaginationIterator T := { p with currentIndex := p.currentIndex + 1 }
  if p1.currentIndex ≥ (p1.items.length : Int) ∧ p1.hasMore then
    match p1.loadNextPage fetch firstUrl with
    | (.error _, reqs) => (false, p1, reqs)
    | (.ok p2, reqs) =>
      let p3 : PaginationIterator T := { p2 with currentIndex := 0 }
      (decide (p3.currentIndex < (p3.items.length : Int)), p3, reqs)
  else (decide (p1.currentIndex < (p1.items.length : Int)), p1, [])

/-- `k` successive calls of `Next()`, collecting every request issued. -/
def PaginationIterator.nextCalls (fetch : Fetch T) (firstUrl : String) :
    Nat → PaginationIterator T → PaginationIterator T × List String
  | 0, p => (p, [])
  | k + 1, p =>
    let step := p.next fetch firstUrl
    let rest := PaginationIterator.nextCalls fetch firstUrl k step.2.1
    (rest.1, step.2.2 ++ rest.2)

/-- The `for nextPageUrl != "" && len(response.Items) > 0` loop of Go
`FetchAllPages`, with the accumulated items, the last response's items and
the pending cursor as loop state.  `fuel` bounds the iteration count;
`none` means the bound was hit with the loop still running. -/
def fetchAllPagesLoop (fetch : Fetch T) :
    Nat → String → List T → List T →
    Option (Except String (List T) × List String)
  | 0, nextPageUrl, lastItems, allItems =>
    if (nextPageUrl != "") && !lastItems.isEmpty then none
    else some (.ok allItems, [])
  | fuel + 1, nextPageUrl, lastItems, allItems =>
    if (nextPageUrl != "") && !lastItems.isEmpty then
      match fetch nextPageUrl with
      | .error e => some (.error ("query failed: " ++ e), [nextPageUrl])
      | .ok resp =>
        match fetchAllPagesLoop fetch fuel resp.PageDetails.NextPageUrl
            resp.Items (allItems ++ resp.Items) with
        | none => none
        | some (r, reqs) => some (r, nextPageUrl :: reqs)
    else some (.ok allItems, [])

/-- Go `FetchAllPages`: fetch the first page from the query endpoint, then
follow next-page cursors while the previous response had a cursor and a
non-empty item list, concatenating all items. -/
def FetchAllPages (fetch : Fetch T) (firstUrl : String) (fuel : Nat) :
    Option (Except String (List T) × List String) :=
  match fetch firstUrl with
  | .error e => some (.error ("query failed: " ++ e), [firstUrl])
  | .ok resp =>
    match fetchAllPagesLoop fetch fuel resp.PageDetails.NextPageUrl
        resp.Items resp.Items with
    | none => none
    | some (r, reqs) => some (r, firstUrl :: reqs)

/-- A per-page callback: `none` models a `nil` error return. -/
abbrev PageCallback (T : Type) := List T → PageDetails → Option String

/-- The subsequent-pages loop of Go `FetchAllPagesWithCallback`: same guard
as `fetchAllPagesLoop`; each iteration fetches, overwrites the reported
page number with the local counter, invokes the callback and stops with the
callback's error when it returns one.  The trace records the requests
issued and the `(items, pageDetails)` arguments of every callback
invocation. -/
def fetchAllPagesCbLoop (fetch : Fetch T) (callback : PageCallback T) :
    Nat → Int → String → List T →
    Option (Except String Unit × List String × List (List T × PageDetails))
  | 0, _, nextPageUrl, lastItems =>
    if (nextPageUrl != "") && !lastItems.isEmpty then none
    else some (.ok (), [], [])
  | fuel + 1, currentPage, nextPageUrl, lastItems =>
    if (nextPageUrl != "") && !lastItems.isEmpty then
      match fetch nextPageUrl with
      | .error e =>
        some (.error ("query failed: " ++ e), [nextPageUrl], [])
      | .ok resp =>
        let pd := { resp.PageDetails with PageNumber := currentPage }
        match callback resp.Items pd with
        | some e => some (.error e, [nextPageUrl], [(resp.Items, pd)])
        | none =>
          match fetchAllPagesCbLoop fetch callback fuel (currentPage + 1)
              resp.PageDetails.NextPageUrl resp.Items with
          | none => none
          | some (r, reqs, cbs) =>
            some (r, nextPageUrl :: reqs, (resp.Items, pd) :: cbs)
    else some (.ok (), [], [])

/-- Go `FetchAllPagesWithCallback`: fetch the first page, overwrite its
page number with `1`, run the callback (propagating its error), then run
the cursor-following loop starting from page counter `2`. -/
def FetchAllPagesWithCallback (fetch : Fetch T) (callback : PageCallback T)
    (firstUrl : String) (fuel : Nat) :
    Option (Except String Unit × List String × List (List T × PageDetails)) :=
  match fetch firstUrl with
  | .error e => some (.error ("query failed: " ++ e), [firstUrl], [])
  | .ok resp =>
    let pd := { resp.PageDetails with PageNumber := 1 }
    match callback resp.Items pd with
    | some e => some (.error e, [firstUrl], [(resp.Items, pd)])
    | none =>
      match fetchAllPagesCbLoop fetch callback fuel 2
          resp.PageDetails.NextPageUrl resp.Items with
      | none => none
      | some (r, reqs, cbs) =>
        some (r, firstUrl :: reqs, (resp.Items, pd) :: cbs)

/-- The `for currentPage < options.Page && nextPageUrl != ""` walk of Go
`FetchPage`: each iteration fetches the pending cursor, bumps the page
counter, and breaks when the target page is reached or the new cursor is
empty.  The counter strictly increases, so `fuel = page.toNat` (the value
`FetchPage` passes) can never run out before the guard fails; the fuel-zero
equation returns what the guard-false exit returns in either guard state. -/
def fetchPageLoop (fetch : Fetch T) (page : Int) :
    Nat → Int → String → PaginatedResults T →
    Except String (PaginatedResults T × Int) × List String
  | 0, currentPage, _, resp => (.ok (resp, currentPage), [])
  | fuel + 1, currentPage, nextPageUrl, resp =>
    if currentPage < page ∧ nextPageUrl ≠ "" then
      match fetch nextPageUrl with
      | .error e => (.error ("query failed: " ++ e), [nextPageUrl])
      | .ok resp' =>
        let currentPage' := currentPage + 1
        let nextPageUrl' := resp'.PageDetails.NextPageUrl
        if currentPage' ≥ page then (.ok (resp', currentPage'), [nextPageUrl])
        else if nextPageUrl' = "" then
          (.ok (resp', currentPage'), [nextPageUrl])
        else
          match fetchPageLoop fetch page fuel currentPage' nextPageUrl'
              resp' with
          | (r, reqs) => (r, nextPageUrl :: reqs)
    else (.ok (resp, currentPage), [])

/-- Go `FetchPage`: re-issue the first-page request, then walk next-page
cursors from page counter `1` until the target page is reached or cursors
run out; the returned page number is overwritten with the final counter. -/
def FetchPage (fetch : Fetch T) (firstUrl : String) (page : Int) :
    Except String (PaginatedResults T) × List String :=
  match fetch firstUrl with
  | .error e => (.error ("query failed: " ++ e), [firstUrl])
  | .ok resp =>
    match fetchPageLoop fetch page page.toNat 1
        resp.PageDetails.NextPageUrl resp with
    | (.error e, reqs) => (.error e, firstUrl :: reqs)
    | (.ok (resp', currentPage), reqs) =>
      (.ok { resp' with
        PageDetails := { resp'.PageDetails with PageNumber := currentPage } },
        firstUrl :: reqs)

/-! ## Claims about the filter parser -/

/-- Whatever the value coercion does, `parseValueWithOperator` keeps the
field it was given. -/
theorem parseValueWithOperator_Field (field : String) (op : QueryOperator)
    (valueStr : String) :
    (parseValueWithOperator field op valueStr).Field = field := by
  unfold parseValueWithOperator NewQueryFilter
  split
  · rfl
  · split
    · rfl
    · split
      · split <;> rfl
      · rfl

/-- C1: the claim says `"Status!=5"` parses to field `Status`, operator
not-equals and the *integer* `5`.  The code disagrees: `isNumeric` scans
into a `*struct{}` and therefore never succeeds, so the numeric branch of
`parseValueWithOperator` is dead and the value stays the *string* `"5"`.
This theorem evaluates the code at the failing input. -/
theorem c1_numeric_literal_stays_string :
    ParseFilterString "Status!=5" =
      some (.filter ⟨"Status", OperatorNotEquals,
        some (FilterValue.str "5")⟩) := rfl

/-- C2 counterexample: parsing `"name='Test' AND active=true"` does not
yield leaves with the fields as written — `parseComplexFilter` splits the
upper-cased string, so the leaves carry `NAME` and `ACTIVE` (and the values
`'TEST'` and the string `TRUE`), and `NAME ≠ name`. -/
theorem c2_counterexample :
    ParseFilterString "name=\x27Test\x27 AND active=true" =
      some (.group LogicalOperatorAnd
        [.filter ⟨"NAME", OperatorEquals, some (.str "\x27TEST\x27")⟩,
         .filter ⟨"ACTIVE", OperatorEquals, some (.str "TRUE")⟩]) ∧
    ("NAME" : String) ≠ "name" := by
  exact ⟨rfl, by decide⟩

/-- C2 amended: field names are preserved verbatim only on the simple
`!=` / `>` / `<` / `=` paths (where the split parts are merely trimmed);
a string containing AND/OR connectives is upper-cased before splitting, so
each leaf carries the upper-cased field and value text — in particular
`"name='Test' AND active=true"` parses to
`FilterGroup{and, [QueryFilter(NAME, eq, 'TEST'), QueryFilter(ACTIVE, eq,
"TRUE")]}` of length 2. -/
theorem c2_amended_fields_uppercased (s f v : String)
    (h : goSplit s "!=" = [f, v]) :
    (parseSimpleFilter s).Field = goTrimSpace f ∧
    ParseFilterString "name=\x27Test\x27 AND active=true" =
      some (.group LogicalOperatorAnd
        [.filter ⟨"NAME", OperatorEquals, some (.str "\x27TEST\x27")⟩,
         .filter ⟨"ACTIVE", OperatorEquals, some (.str "TRUE")⟩]) := by
  constructor
  · unfold parseSimpleFilter split2
    rw [h]
    exact parseValueWithOperator_Field _ _ _
  · rfl

/-- C2 amended, witness at `s = "a != b"`. -/
theorem c2_amended_witness :
    (parseSimpleFilter "a != b").Field = goTrimSpace "a " ∧
    ParseFilterString "name=\x27Test\x27 AND active=true" =
      some (.group LogicalOperatorAnd
        [.filter ⟨"NAME", OperatorEquals, some (.str "\x27TEST\x27")⟩,
         .filter ⟨"ACTIVE", OperatorEquals, some (.str "TRUE")⟩]) :=
  c2_amended_fields_uppercased "a != b" "a " " b" rfl

/-- C3 counterexample: the claim says `"name='a=b'"` still parses into
field `name` and value `'a=b'`.  The code uses `strings.Split` and demands
exactly two parts, and `=` occurs twice here, so the condition degrades to
the zero-value `QueryFilter` instead. -/
theorem c3_counterexample :
    parseSimpleFilter "name=\x27a=b\x27" = ⟨"", "", none⟩ ∧
    (⟨"", "", none⟩ : QueryFilter) ≠
      ⟨"name", OperatorEquals, some (.str "\x27a=b\x27")⟩ := by
  exact ⟨rfl, by simp [OperatorEquals]⟩

/-- C3 amended: `parseSimpleFilter` splits on *every* occurrence of the
operator token and takes the branch only when exactly two parts result
(the token occurs exactly once); the parts, trimmed, become field and
value.  A condition whose value segment contains a second occurrence of
the token (e.g. `"name='a=b'"`) does not parse into that field and value
but degrades to the zero-value `QueryFilter`. -/
theorem c3_amended_single_occurrence_splits :
    (∀ s f v, goSplit s "!=" = [f, v] →
      parseSimpleFilter s =
        parseValueWithOperator (goTrimSpace f) OperatorNotEquals
          (goTrimSpace v)) ∧
    (∀ s f v, split2 s "!=" = none →
      split2 (goToLower s) " contains " = none →
      split2 s ">" = none → split2 s "<" = none →
      goSplit s "=" = [f, v] →
      parseSimpleFilter s =
        parseValueWithOperator (goTrimSpace f) OperatorEquals
          (goTrimSpace v)) := by
  constructor
  · intro s f v h
    unfold parseSimpleFilter split2
    rw [h]
  · intro s f v h1 h2 h3 h4 h5
    unfold parseSimpleFilter
    rw [h1, h2, h3, h4]
    unfold split2
    rw [h5]

/-- C3 amended, witness at `"a!=b"` and `"x = y"`. -/
theorem c3_amended_witness :
    parseSimpleFilter "a!=b" =
      parseValueWithOperator "a" OperatorNotEquals "b" ∧
    parseSimpleFilter "x = y" =
      parseValueWithOperator "x" OperatorEquals "y" := by
  constructor
  · have h := c3_amended_single_occurrence_splits.1 "a!=b" "a" "b" rfl
    simpa using h
  · have h := c3_amended_single_occurrence_splits.2 "x = y" "x " " y"
      rfl rfl rfl rfl rfl
    simpa using h

/-- C6: a condition string in which no operator decomposition is found —
none of the five splits yields exactly two parts — parses (without any
error path) to the zero-value `QueryFilter`: empty field, empty operator,
nil value. -/
theorem c6_unparseable_degrades_to_zero_filter (s : String)
    (h1 : split2 s "!=" = none)
    (h2 : split2 (goToLower s) " contains " = none)
    (h3 : split2 s ">" = none) (h4 : split2 s "<" = none)
    (h5 : split2 s "=" = none) :
    parseSimpleFilter s = ⟨"", "", none⟩ := by
  unfold parseSimpleFilter
  rw [h1, h2, h3, h4, h5]

/-- C6 witness at `"just a plain string"`. -/
theorem c6_witness :
    parseSimpleFilter "just a plain string" = ⟨"", "", none⟩ :=
  c6_unparseable_degrades_to_zero_filter "just a plain string"
    rfl rfl rfl rfl rfl

/-! ## Claims about the pagination engine -/

/-- With `hasMore` unset, `Next()` only bumps the index: no request is
issued and the state is otherwise unchanged. -/
theorem next_of_not_hasMore (fetch : Fetch T) (firstUrl : String)
    (p : PaginationIterator T) (h : p.hasMore = false) :
    p.next fetch firstUrl =
      (decide (p.currentIndex + 1 < (p.items.length : Int)),
       { p with currentIndex := p.currentIndex + 1 }, []) := by
  unfold PaginationIterator.next
  rw [if_neg]
  intro hc
  rw [show ({ p with currentIndex := p.currentIndex + 1 } :
    PaginationIterator T).hasMore = p.hasMore from rfl, h] at hc
  exact absurd hc.2 (by simp)

/-- A transport with a single one-item page and no next cursor. -/
def fetchOnePage : Fetch Nat := fun url =>
  if url = "first" then .ok ⟨[7], ⟨1, 10, 1, "", ""⟩⟩
  else .error "no such page"

/-- The iterator state after fetching the only page of `fetchOnePage`:
empty next cursor, one unconsumed buffered item. -/
def iterAfterLastPage : PaginationIterator Nat :=
  { filter := "", currentPage := 2, pageSize := 10, totalCount := 1,
    hasMore := false, nextPageUrl := "", prevPageUrl := "",
    items := [7], currentIndex := -1 }

/-- C4 counterexample: after fetching a page that carries an empty
next-page cursor (and still holds an unconsumed item), the next call of
`Next()` returns `true` — not `false` as the claim states — although it
does issue no request. -/
theorem c4_counterexample :
    NewPaginationIterator fetchOnePage "first" "" 10 =
      (.ok iterAfterLastPage, ["first"]) ∧
    (iterAfterLastPage.next fetchOnePage "first").1 = true ∧
    (iterAfterLastPage.next fetchOnePage "first").2.2 = [] :=
  ⟨rfl, rfl, rfl⟩

/-- C4 amended: once a fetched page carries an empty next-page cursor the
iterator's `hasMore` is false and stays false, so no further request is
ever issued by any number of subsequent `Next()` calls — which return
`true` exactly while unconsumed items remain in the buffer and `false`
thereafter — and the `FetchAllPages` / `FetchAllPagesWithCallback` loops
stop at once when the pending cursor is empty, regardless of fuel and of
the server-reported total count (which no loop guard consults). -/
theorem c4_amended_empty_cursor_stops :
    (∀ (T : Type) (fetch : Fetch T) (firstUrl : String)
        (p : PaginationIterator T) (k : Nat), p.hasMore = false →
      (PaginationIterator.nextCalls fetch firstUrl k p).2 = [] ∧
      (PaginationIterator.nextCalls fetch firstUrl k p).1.hasMore = false) ∧
    (∀ (T : Type) (fetch : Fetch T) (firstUrl : String)
        (p : PaginationIterator T), p.hasMore = false →
      ((p.next fetch firstUrl).1 = true ↔
        p.currentIndex + 1 < (p.items.length : Int))) ∧
    (∀ (T : Type) (fetch : Fetch T) (fuel : Nat) (lastItems allItems : List T),
      fetchAllPagesLoop fetch fuel "" lastItems allItems =
        some (.ok allItems, [])) ∧
    (∀ (T : Type) (fetch : Fetch T) (cb : PageCallback T) (fuel : Nat)
        (currentPage : Int) (lastItems : List T),
      fetchAllPagesCbLoop fetch cb fuel currentPage "" lastItems =
        some (.ok (), [], [])) := by
  refine ⟨?_, ?_, ?_, ?_⟩
  · intro T fetch firstUrl p k h
    induction k generalizing p with
    | zero => exact ⟨rfl, h⟩
    | succ k ih =>
      unfold PaginationIterator.nextCalls
      rw [next_of_not_hasMore fetch firstUrl p h]
      have h' : ({ p with currentIndex := p.currentIndex + 1 } :
          PaginationIterator T).hasMore = false := h
      obtain ⟨h1, h2⟩ := ih _ h'
      exact ⟨by simpa using h1, h2⟩
  · intro T fetch firstUrl p h
    rw [next_of_not_hasMore fetch firstUrl p h]
    simp
  · intro T fetch fuel lastItems allItems
    cases fuel <;> simp [fetchAllPagesLoop]
  · intro T fetch cb fuel currentPage lastItems
    cases fuel <;> simp [fetchAllPagesCbLoop]

/-- C4 amended, witness on `fetchOnePage`. -/
theorem c4_witness :
    ((PaginationIterator.nextCalls fetchOnePage "first" 5
        iterAfterLastPage).2 = [] ∧
     (PaginationIterator.nextCalls fetchOnePage "first" 5
        iterAfterLastPage).1.hasMore = false) ∧
    ((iterAfterLastPage.next fetchOnePage "first").1 = true ↔
      iterAfterLastPage.currentIndex + 1 <
        (iterAfterLastPage.items.length : Int)) ∧
    fetchAllPagesLoop fetchOnePage 9 "" [7] [7] = some (.ok [7], []) ∧
    fetchAllPagesCbLoop fetchOnePage (fun _ _ => none) 9 2 "" [7] =
      some (.ok (), [], []) :=
  ⟨c4_amended_empty_cursor_stops.1 Nat fetchOnePage "first"
      iterAfterLastPage 5 rfl,
   c4_amended_empty_cursor_stops.2.1 Nat fetchOnePage "first"
      iterAfterLastPage rfl,
   c4_amended_empty_cursor_stops.2.2.1 Nat fetchOnePage 9 [7] [7],
   c4_amended_empty_cursor_stops.2.2.2 Nat fetchOnePage
      (fun _ _ => none) 9 2 [7]⟩

/-- A transport that always fails. -/
def fetchAlwaysFails : Fetch Nat := fun _ => .error "boom"

/-- An iterator mid-traversal: both buffered items consumed, a next-page
cursor pending, so the next `Next()` call must fetch. -/
def iterAtPageBoundary : PaginationIterator Nat :=
  { filter := "", currentPage := 2, pageSize := 2, totalCount := 6,
    hasMore := true, nextPageUrl := "/q?page=2", prevPageUrl := "",
    items := [10, 11], currentIndex := 1 }

/-- C5: the claim says a failed boundary fetch surfaces through the
iterator's error accessor.  The code's `Error()` method is hard-coded to
`return nil`: here the boundary fetch fails (one request is issued and
`Next()` returns `false`), yet the accessor still yields `nil`, so a
caller cannot distinguish exhaustion from failure.  This theorem evaluates
the code at the failing input. -/
theorem c5_error_accessor_always_nil :
    (iterAtPageBoundary.next fetchAlwaysFails "first").1 = false ∧
    (iterAtPageBoundary.next fetchAlwaysFails "first").2.2 =
      ["/q?page=2"] ∧
    (iterAtPageBoundary.next fetchAlwaysFails
        "first").2.1.ErrorAccessor = none ∧
    (∀ (T : Type) (q : PaginationIterator T), q.ErrorAccessor = none) :=
  ⟨rfl, rfl, rfl, fun _ _ => rfl⟩

/-- A transport that answers every request with an empty page that still
advertises a next-page cursor. -/
def fetchEmptyPages : Fetch Nat := fun _ => .ok ⟨[], ⟨1, 10, 0, "more", ""⟩⟩

/-- The initial iterator state built by `NewPaginationIterator` before the
eager first-page load. -/
def iterInit : PaginationIterator Nat :=
  { filter := "", currentPage := 1, pageSize := 10, totalCount := 0,
    hasMore := false, nextPageUrl := "", prevPageUrl := "",
    items := [], currentIndex := -1 }

/-- C10: a fetched page with zero items stops all traversal even when it
carries a non-empty next-page cursor: any state `loadNextPage` produces by
an actual request has `hasMore = false` whenever its item list is empty,
and the `FetchAllPages` / `FetchAllPagesWithCallback` loop guards demand a
non-empty previous item list, so they stop at once — a server returning
cursors on empty pages cannot cause an unbounded request loop. -/
theorem c10_empty_page_stops :
    (∀ (T : Type) (fetch : Fetch T) (firstUrl : String)
        (p p' : PaginationIterator T) (reqs : List String),
      p.loadNextPage fetch firstUrl = (.ok p', reqs) → reqs ≠ [] →
      p'.items = [] → p'.hasMore = false) ∧
    (∀ (T : Type) (fetch : Fetch T) (fuel : Nat) (nextPageUrl : String)
        (allItems : List T),
      fetchAllPagesLoop fetch fuel nextPageUrl [] allItems =
        some (.ok allItems, [])) ∧
    (∀ (T : Type) (fetch : Fetch T) (cb : PageCallback T) (fuel : Nat)
        (currentPage : Int) (nextPageUrl : String),
      fetchAllPagesCbLoop fetch cb fuel currentPage nextPageUrl [] =
        some (.ok (), [], [])) := by
  refine ⟨?_, ?_, ?_⟩
  · intro T fetch firstUrl p p' reqs h hreq hitems
    unfold PaginationIterator.loadNextPage at h
    split at h
    · split at h
      · simp at h
      · simp only [Prod.mk.injEq, Except.ok.injEq] at h
        obtain ⟨hp, -⟩ := h
        subst hp
        simp only at hitems ⊢
        simp [hitems]
    · split at h
      · split at h
        · simp at h
        · simp only [Prod.mk.injEq, Except.ok.injEq] at h
          obtain ⟨hp, -⟩ := h
          subst hp
          simp only at hitems ⊢
          simp [hitems]
      · simp only [Prod.mk.injEq, Except.ok.injEq] at h
        exact absurd h.2.symm hreq
  · intro T fetch fuel nextPageUrl allItems
    cases fuel <;> simp [fetchAllPagesLoop]
  · intro T fetch cb fuel currentPage nextPageUrl
    cases fuel <;> simp [fetchAllPagesCbLoop]

/-- The state the eager first-page load of `fetchEmptyPages` produces:
an empty buffer alongside a non-empty next cursor, with `hasMore` false. -/
def iterEmptyLoaded : PaginationIterator Nat :=
  { filter := "", currentPage := 2, pageSize := 10, totalCount := 0,
    hasMore := false, nextPageUrl := "more", prevPageUrl := "",
    items := [], currentIndex := -1 }

/-- C10 witness on `fetchEmptyPages`. -/
theorem c10_witness :
    iterEmptyLoaded.hasMore = false ∧
    fetchAllPagesLoop fetchEmptyPages 9 "more" ([] : List Nat) [] =
      some (.ok [], []) ∧
    fetchAllPagesCbLoop fetchEmptyPages (fun _ _ => none) 9 2 "more"
      ([] : List Nat) = some (.ok (), [], []) :=
  ⟨c10_empty_page_stops.1 Nat fetchEmptyPages "first" iterInit
      iterEmptyLoaded ["first"] rfl (by simp) rfl,
   c10_empty_page_stops.2.1 Nat fetchEmptyPages 9 "more" [],
   c10_empty_page_stops.2.2 Nat fetchEmptyPages (fun _ _ => none) 9 2
     "more"⟩

/-- Trace property of the subsequent-pages loop of
`FetchAllPagesWithCallback`: in any completed run, every recorded callback
invocation except possibly the last returned `nil`, and when the last one
returned an error, that error is the loop's result and no request was
issued after it (the request count equals the invocation count). -/
theorem cbLoop_error_trace (fetch : Fetch T) (cb : PageCallback T) :
    ∀ (fuel : Nat) (currentPage : Int) (url : String) (lastItems : List T)
      (r : Except String Unit) (reqs : List String)
      (cbs : List (List T × PageDetails)),
      fetchAllPagesCbLoop fetch cb fuel currentPage url lastItems =
        some (r, reqs, cbs) →
      (∀ x ∈ cbs.dropLast, cb x.1 x.2 = none) ∧
      (∀ x e, cbs.getLast? = some x → cb x.1 x.2 = some e →
        r = .error e ∧ reqs.length = cbs.length) := by
  intro fuel
  induction fuel with
  | zero =>
    intro cp url lastItems r reqs cbs h
    rw [fetchAllPagesCbLoop] at h
    split at h
    · simp at h
    · simp only [Option.some.injEq, Prod.mk.injEq] at h
      obtain ⟨-, -, hcbs⟩ := h
      subst hcbs
      exact ⟨by simp, by simp⟩
  | succ fuel ih =>
    intro cp url lastItems r reqs cbs h
    rw [fetchAllPagesCbLoop] at h
    split at h
    · cases hf : fetch url with
      | error e =>
        rw [hf] at h
        simp only [Option.some.injEq, Prod.mk.injEq] at h
        obtain ⟨-, -, hcbs⟩ := h
        subst hcbs
        exact ⟨by simp, by simp⟩
      | ok resp =>
        rw [hf] at h
        cases hc : cb resp.Items
            { resp.PageDetails with PageNumber := cp } with
        | some e =>
          simp only [hc, Option.some.injEq, Prod.mk.injEq] at h
          obtain ⟨hr, hreqs, hcbs⟩ := h
          subst hr hreqs hcbs
          refine ⟨by simp, ?_⟩
          intro x e' hlast hcb
          simp only [List.getLast?_singleton, Option.some.injEq] at hlast
          subst hlast
          rw [hc] at hcb
          simp only [Option.some.injEq] at hcb
          subst hcb
          exact ⟨rfl, rfl⟩
        | none =>
          simp only [hc] at h
          cases hrec : fetchAllPagesCbLoop fetch cb fuel (cp + 1)
              resp.PageDetails.NextPageUrl resp.Items with
          | none => rw [hrec] at h; simp at h
          | some out =>
            rw [hrec] at h
            obtain ⟨r', reqs', cbs'⟩ := out
            simp only [Option.some.injEq, Prod.mk.injEq] at h
            obtain ⟨hr, hreqs, hcbs⟩ := h
            subst hr hreqs hcbs
            obtain ⟨ihA, ihB⟩ := ih (cp + 1) resp.PageDetails.NextPageUrl
              resp.Items r' reqs' cbs' hrec
            cases cbs' with
            | nil =>
              refine ⟨by simp, ?_⟩
              intro x e' hlast hcb
              simp only [List.getLast?_singleton, Option.some.injEq] at hlast
              subst hlast
              rw [hc] at hcb
              exact absurd hcb (by simp)
            | cons y ys =>
              constructor
              · intro x hx
                rw [List.dropLast_cons₂] at hx
                rcases List.mem_cons.mp hx with hx | hx
                · subst hx; exact hc
                · exact ihA x hx
              · intro x e' hlast hcb
                rw [List.getLast?_cons_cons] at hlast
                obtain ⟨hre, hlen⟩ := ihB x e' hlast hcb
                exact ⟨hre, by simp [hlen]⟩
    · simp only [Option.some.injEq, Prod.mk.injEq] at h
      obtain ⟨-, -, hcbs⟩ := h
      subst hcbs
      exact ⟨by simp, by simp⟩

/-- C8: for every callback handed to `FetchAllPagesWithCallback`, a run
records no callback invocation after one that returned an error (its
predecessors in the trace all returned `nil`), and when the final recorded
invocation returned an error, exactly that error is the helper's result
and no request was issued after it. -/
theorem c8_callback_error_stops (T : Type) (fetch : Fetch T)
    (cb : PageCallback T) (firstUrl : String) (fuel : Nat)
    (r : Except String Unit) (reqs : List String)
    (cbs : List (List T × PageDetails))
    (h : FetchAllPagesWithCallback fetch cb firstUrl fuel =
      some (r, reqs, cbs)) :
    (∀ x ∈ cbs.dropLast, cb x.1 x.2 = none) ∧
    (∀ x e, cbs.getLast? = some x → cb x.1 x.2 = some e →
      r = .error e ∧ reqs.length = cbs.length) := by
  unfold FetchAllPagesWithCallback at h
  cases hf : fetch firstUrl with
  | error e =>
    simp only [hf, Option.some.injEq, Prod.mk.injEq] at h
    obtain ⟨-, -, hcbs⟩ := h
    subst hcbs
    exact ⟨by simp, by simp⟩
  | ok resp =>
    simp only [hf] at h
    cases hc : cb resp.Items { resp.PageDetails with PageNumber := 1 } with
    | some e =>
      simp only [hc, Option.some.injEq, Prod.mk.injEq] at h
      obtain ⟨hr, hreqs, hcbs⟩ := h
      subst hr hreqs hcbs
      refine ⟨by simp, ?_⟩
      intro x e' hlast hcb
      simp only [List.getLast?_singleton, Option.some.injEq] at hlast
      subst hlast
      rw [hc] at hcb
      simp only [Option.some.injEq] at hcb
      subst hcb
      exact ⟨rfl, rfl⟩
    | none =>
      simp only [hc] at h
      cases hrec : fetchAllPagesCbLoop fetch cb fuel 2
          resp.PageDetails.NextPageUrl resp.Items with
      | none => rw [hrec] at h; simp at h
      | some out =>
        rw [hrec] at h
        obtain ⟨r', reqs', cbs'⟩ := out
        simp only [Option.some.injEq, Prod.mk.injEq] at h
        obtain ⟨hr, hreqs, hcbs⟩ := h
        subst hr hreqs hcbs
        obtain ⟨ihA, ihB⟩ := cbLoop_error_trace fetch cb fuel 2
          resp.PageDetails.NextPageUrl resp.Items r' reqs' cbs' hrec
        cases cbs' with
        | nil =>
          refine ⟨by simp, ?_⟩
          intro x e' hlast hcb
          simp only [List.getLast?_singleton, Option.some.injEq] at hlast
          subst hlast
          rw [hc] at hcb
          exact absurd hcb (by simp)
        | cons y ys =>
          constructor
          · intro x hx
            rw [List.dropLast_cons₂] at hx
            rcases List.mem_cons.mp hx with hx | hx
            · subst hx; exact hc
            · exact ihA x hx
          · intro x e' hlast hcb
            rw [List.getLast?_cons_cons] at hlast
            obtain ⟨hre, hlen⟩ := ihB x e' hlast hcb
            exact ⟨hre, by simp [hlen]⟩

/-- A two-page transport for the C8 witness: page `"A"` (one item, cursor
`"B"`), page `"B"` (one item, cursor `"C"`). -/
def fetchTwoPages : Fetch Nat := fun url =>
  if url = "A" then .ok ⟨[1], ⟨1, 100, 2, "B", ""⟩⟩
  else if url = "B" then .ok ⟨[2], ⟨2, 100, 2, "C", ""⟩⟩
  else .error "no such page"

/-- A callback that errors on the second page. -/
def cbStopAtTwo : PageCallback Nat := fun _ pd =>
  if pd.PageNumber = 2 then some "stop" else none

/-- C8 witness: the run of `FetchAllPagesWithCallback` on `fetchTwoPages`
with `cbStopAtTwo` errors on page 2 after exactly two requests and two
callback invocations. -/
theorem c8_witness :
    (∀ x ∈ ([([1], ⟨1, 100, 2, "B", ""⟩),
        ([2], ⟨2, 100, 2, "C", ""⟩)] :
          List (List Nat × PageDetails)).dropLast,
      cbStopAtTwo x.1 x.2 = none) ∧
    (∀ x e,
      (([([1], ⟨1, 100, 2, "B", ""⟩), ([2], ⟨2, 100, 2, "C", ""⟩)] :
          List (List Nat × PageDetails))).getLast? = some x →
      cbStopAtTwo x.1 x.2 = some e →
      (Except.error "stop" : Except String Unit) = .error e ∧
      (["A", "B"] : List String).length =
        ([([1], ⟨1, 100, 2, "B", ""⟩), ([2], ⟨2, 100, 2, "C", ""⟩)] :
          List (List Nat × PageDetails)).length) :=
  c8_callback_error_stops Nat fetchTwoPages cbStopAtTwo "A" 9
    (.error "stop") ["A", "B"]
    [([1], ⟨1, 100, 2, "B", ""⟩), ([2], ⟨2, 100, 2, "C", ""⟩)] rfl

/-- One guard-passing iteration of the `FetchPage` cursor walk. -/
theorem fetchPageLoop_step (fetch : Fetch T) (page : Int) (fuel : Nat)
    (currentPage : Int) (url : String) (resp resp' : PaginatedResults T)
    (hg : currentPage < page) (hu : url ≠ "") (hf : fetch url = .ok resp') :
    fetchPageLoop fetch page (fuel + 1) currentPage url resp =
      (if currentPage + 1 ≥ page then (.ok (resp', currentPage + 1), [url])
       else if resp'.PageDetails.NextPageUrl = "" then
         (.ok (resp', currentPage + 1), [url])
       else
         match fetchPageLoop fetch page fuel (currentPage + 1)
             resp'.PageDetails.NextPageUrl resp' with
         | (r, reqs) => (r, url :: reqs)) := by
  rw [fetchPageLoop, if_pos ⟨hg, hu⟩, hf]

/-- The `FetchPage` cursor walk stops when its guard fails. -/
theorem fetchPageLoop_done (fetch : Fetch T) (page : Int) (fuel : Nat)
    (currentPage : Int) (url : String) (resp : PaginatedResults T)
    (hg : ¬(currentPage < page ∧ url ≠ "")) :
    fetchPageLoop fetch page fuel currentPage url resp =
      (.ok (resp, currentPage), []) := by
  cases fuel with
  | zero => rw [fetchPageLoop]
  | succ fuel => rw [fetchPageLoop, if_neg hg]

/-- C7: `FetchPage` for target page 3, when the responses to the first and
second fetches carry next-page cursors, re-issues the first-page request
and then follows the two cursors one page at a time: exactly the three
requests `firstUrl`, cursor 1, cursor 2 — never a single direct jump — and
the returned page is the third response stamped with page number 3. -/
theorem c7_fetchpage_walks_pages (T : Type) (fetch : Fetch T)
    (firstUrl : String) (r1 r2 r3 : PaginatedResults T)
    (h1 : fetch firstUrl = .ok r1)
    (n1 : r1.PageDetails.NextPageUrl ≠ "")
    (h2 : fetch r1.PageDetails.NextPageUrl = .ok r2)
    (n2 : r2.PageDetails.NextPageUrl ≠ "")
    (h3 : fetch r2.PageDetails.NextPageUrl = .ok r3) :
    FetchPage fetch firstUrl 3 =
      (.ok { r3 with
        PageDetails := { r3.PageDetails with PageNumber := 3 } },
       [firstUrl, r1.PageDetails.NextPageUrl,
        r2.PageDetails.NextPageUrl]) := by
  have loop2 : fetchPageLoop fetch 3 (1 + 1) (1 + 1)
      r2.PageDetails.NextPageUrl r2 =
      (.ok (r3, 1 + 1 + 1), [r2.PageDetails.NextPageUrl]) := by
    rw [fetchPageLoop_step fetch 3 1 (1 + 1) r2.PageDetails.NextPageUrl
        r2 r3 (by norm_num) n2 h3, if_pos (by norm_num)]
  have loop1 : fetchPageLoop fetch 3 (2 + 1) 1
      r1.PageDetails.NextPageUrl r1 =
      (.ok (r3, 1 + 1 + 1),
       [r1.PageDetails.NextPageUrl, r2.PageDetails.NextPageUrl]) := by
    rw [fetchPageLoop_step fetch 3 2 1 r1.PageDetails.NextPageUrl
        r1 r2 (by norm_num) n1 h2, if_neg (by norm_num), if_neg n2, loop2]
  unfold FetchPage
  simp only [h1]
  rw [show ((3 : Int)).toNat = 2 + 1 from rfl]
  simp only [loop1]
  norm_num

/-- A three-page transport for the C7 witness. -/
def fetchThreePages : Fetch Nat := fun url =>
  if url = "A" then .ok ⟨[1], ⟨1, 10, 25, "B", ""⟩⟩
  else if url = "B" then .ok ⟨[2], ⟨2, 10, 25, "C", "A"⟩⟩
  else if url = "C" then .ok ⟨[3], ⟨3, 10, 25, "", "B"⟩⟩
  else .error "no such page"

/-- C7 witness on `fetchThreePages`: target page 3 issues exactly the three
requests `A`, `B`, `C`. -/
theorem c7_witness :
    FetchPage fetchThreePages "A" 3 =
      (.ok ⟨[3], ⟨3, 10, 25, "", "B"⟩⟩, ["A", "B", "C"]) :=
  c7_fetchpage_walks_pages Nat fetchThreePages "A"
    ⟨[1], ⟨1, 10, 25, "B", ""⟩⟩ ⟨[2], ⟨2, 10, 25, "C", "A"⟩⟩
    ⟨[3], ⟨3, 10, 25, "", "B"⟩⟩
    rfl (by simp) rfl (by simp) rfl

/-- C9: parsing `"(name='Test' OR name='Test2') AND active=true"` yields an
outer AND group of exactly 2 items whose first item is an OR group of
exactly 2 items: the parenthesized segment is stripped and its interior
parsed as the opposite-connective group.  (The leaves additionally show the
upper-casing of the complex path, cf. C2.) -/
theorem c9_nested_parse_shape :
    ParseFilterString
        "(name=\x27Test\x27 OR name=\x27Test2\x27) AND active=true" =
      some (.group LogicalOperatorAnd
        [.group LogicalOperatorOr
          [.filter ⟨"NAME", OperatorEquals, some (.str "\x27TEST\x27")⟩,
           .filter ⟨"NAME", OperatorEquals, some (.str "\x27TEST2\x27")⟩],
         .filter ⟨"ACTIVE", OperatorEquals, some (.str "TRUE")⟩]) := rfl

end Autotask
